import Mathlib

/-!
Shallow embedding of the `saudenews` curation pipeline
(`src/news_fetcher.py`, `src/sources.py`, `src/send_email.py`, `src/main.py`)
and proofs about its behaviour.

Conventions:
* Python strings are Lean `String`s; `str.lower()` is modelled by
  `pyLower` (ASCII case folding; every keyword in the configured lists is
  already lower case, so the model agrees with CPython on the texts the
  claims quantify over).
* Python's substring test `needle in haystack` is `pyIn`.
* Python `float` scores are modelled by `Int`: every weight in the source
  is an integral float (1.0 … 7.0) and only additions occur, all of which
  are exact in binary floating point, so `Int` is a faithful model.
* Code that raises is modelled in `Except Unit` (or `Except String`);
  network fetches and the wall clock are oracle parameters.
-/

namespace SaudeNews

/-! ## String helpers (Python semantics) -/

/-- Model of `str.lower()` (ASCII case folding). -/
def pyLower (s : String) : String := String.mk (s.toList.map Char.toLower)

/-- `needle` is a prefix of `hay` (character lists). -/
def isPrefixChars : List Char → List Char → Bool
  | [], _ => true
  | _ :: _, [] => false
  | a :: as, b :: bs => a = b && isPrefixChars as bs

/-- `needle` occurs as a contiguous substring of `hay` (character lists). -/
def containsSubChars (needle : List Char) : List Char → Bool
  | [] => isPrefixChars needle []
  | c :: cs => isPrefixChars needle (c :: cs) || containsSubChars needle cs

/-- Model of Python's `needle in haystack` for strings. -/
def pyIn (needle hay : String) : Bool := containsSubChars needle.toList hay.toList

/-- Characters matched by `\s` / stripped by `str.strip()` (ASCII range). -/
def reIsSpace (c : Char) : Bool :=
  c = ' ' || c = '\t' || c = '\n' || c = '\x0d' || c = '\x0b' || c = '\x0c'

/-- Model of `re.sub(r"\s+", " ", text)`: collapse every whitespace run to one space. -/
def collapseWS : List Char → List Char
  | [] => []
  | [c] => if reIsSpace c then [' '] else [c]
  | c :: d :: cs =>
      if reIsSpace c then
        if reIsSpace d then collapseWS (d :: cs) else ' ' :: collapseWS (d :: cs)
      else c :: collapseWS (d :: cs)

/-- Model of `str.strip()`. -/
def pyStrip (cs : List Char) : List Char :=
  ((cs.dropWhile reIsSpace).reverse.dropWhile reIsSpace).reverse

/-- `re.sub(r"\s+", " ", text).strip()` as used on anchor texts. -/
def normSpace (s : String) : String := String.mk (pyStrip (collapseWS s.toList))

/-- Model of `str.startswith`. -/
def pyStartsWith (s pre : String) : Bool := isPrefixChars pre.toList s.toList

/-- Model of `str.replace(old, new)` (all non-overlapping occurrences,
left to right); `old` is non-empty at both call sites, so a fuel of
`cs.length` always suffices (each step consumes at least one character). -/
def pyReplaceAux (old new : List Char) : Nat → List Char → List Char
  | 0, _ => []
  | fuel + 1, cs =>
      match cs with
      | [] => []
      | c :: rest =>
          if isPrefixChars old (c :: rest) then
            new ++ pyReplaceAux old new fuel (List.drop (old.length - 1) rest)
          else c :: pyReplaceAux old new fuel rest

def pyReplace (s old new : String) : String :=
  String.mk (pyReplaceAux old.toList new.toList s.toList.length s.toList)

/-! ## Sections (`sources.py`) -/

def SECTION_BRASIL : String := "brasil"
def SECTION_MUNDO : String := "mundo"
def SECTION_HEALTHTECHS : String := "healthtechs"
def SECTION_WELLNESS : String := "wellness"

/-- `sources.Source` dataclass. -/
structure Source where
  name : String
  url : String
  «section» : String
  max_articles : Nat := 3
  deriving DecidableEq, Repr

/-- `news_fetcher.Article` dataclass (score as `Int`, see header). -/
structure Article where
  title : String
  url : String
  source_name : String
  «section» : String
  score : Int := 0
  deriving DecidableEq, Repr

/-! ## Keyword configuration (`news_fetcher.py`) -/

def POSITIVE_KEYWORDS : List String := [
  "telemedicina", "teleatendimento", "saúde digital", "saude digital",
  "healthtech", "prontuário eletrônico", "prontuario eletrônico",
  "prontuario eletronico", "inteligência artificial", "inteligencia artificial",
  " ia ", "machine learning", "algoritmo", "dados de saúde", "dados em saúde",
  "dados de saude", "dados em saude", "analytics", "big data",
  "plataforma digital", "app de saúde", "app de saude", "aplicativo de saúde",
  "aplicativo de saude", "monitoramento remoto", "monitorização remota",
  "monitorizacao remota", "atendimento virtual", "consulta virtual",
  "gestão de crônicos", "gestao de cronicos",
  "operadora", "plano de saúde", "plano de saude", "planos de saúde",
  "planos de saude", " ans ", "ans:", "sinistralidade", "autogestão",
  "autogestao", "coparticipação", "coparticipacao", "seguro saúde",
  "seguro saude", "seguros saúde", "seguros saude", "medicina de grupo",
  "hospital", "rede hospitalar", "gestão hospitalar", "gestao hospitalar",
  "acreditação", "acreditacao",
  "saúde mental", "saude mental", "burnout", "depressão", "depressao",
  "ansiedade", "compulsão", "compulsao", "bets", "jogo on-line", "jogo online",
  "wellness", "longevity", "longevidade", "performance", "alta performance",
  "sono", "sleep", "recovery", "fitness", "atividade física",
  "atividade fisica", "treinamento", "treino", "hábito saudável",
  "habito saudavel", "hábitos saudáveis", "habitos saudaveis",
  "prescrição eletrônica", "prescricao eletronica", "prescrição digital",
  "prescricao digital", "receita digital", "receituário digital",
  "receituario digital", "plataforma de prescrição", "plataforma de prescricao"]

def NEGATIVE_KEYWORDS : List String := [
  "prefeitura", "prefeito", "governo de", "governo do ", "governo da ",
  "governador", "secretaria de saúde", "secretaria da saúde",
  "secretaria de saude", "secretaria da saude", "hospital municipal",
  "unidade básica de saúde", "unidade basica de saude", "ubs ",
  "obra no hospital", "licitação", "licitacao", "concurso público",
  "concurso publico",
  "morte de criança", "morre criança", "morre paciente", "crime",
  "assassinato", "violência", "violencia",
  "receita de", "como preparar", "cozinhar", "cozinha", "salada",
  "cdc ", "acip", "sarampo", "pólio", "polio", "campanha de vacinação",
  "campanha de vacinacao",
  "câncer de próstata", "cancer de prostata", "próstata", "prostata"]

/-- `news_fetcher.is_relevant`. -/
def is_relevant (text : String) : Bool :=
  if text = "" then false
  else
    let t := pyLower text
    if NEGATIVE_KEYWORDS.any (fun w => pyIn w t) then false
    else POSITIVE_KEYWORDS.any (fun w => pyIn w t)

/-! ## Calendar dates (`datetime.date`) -/

/-- A proleptic-Gregorian calendar date as held by `datetime.date`. -/
structure PyDate where
  year : Nat
  month : Nat
  day : Nat
  deriving DecidableEq, Repr

def isLeap (y : Nat) : Bool := y % 4 = 0 && (y % 100 != 0 || y % 400 = 0)

def daysInMonth (y m : Nat) : Nat :=
  if m = 2 then (if isLeap y then 29 else 28)
  else if m = 4 || m = 6 || m = 9 || m = 11 then 30
  else 31

def dateOK (y m d : Nat) : Bool :=
  1 ≤ y && y ≤ 9999 && 1 ≤ m && m ≤ 12 && 1 ≤ d && d ≤ daysInMonth y m

/-- `datetime.date(y, m, d)`: raises `ValueError` (modelled as `.error ()`)
on an invalid combination. -/
def mkDate (y m d : Nat) : Except Unit PyDate :=
  if dateOK y m d then .ok ⟨y, m, d⟩ else .error ()

/-- Days in the months strictly before month `m` of a non-leap year. -/
def cumDays : Nat → Nat
  | 1 => 0 | 2 => 31 | 3 => 59 | 4 => 90 | 5 => 120 | 6 => 151 | 7 => 181
  | 8 => 212 | 9 => 243 | 10 => 273 | 11 => 304 | 12 => 334 | _ => 0

/-- `date.toordinal()`: day number in the proleptic Gregorian calendar
(0001-01-01 is day 1). -/
def toOrdinal (dt : PyDate) : Nat :=
  365 * (dt.year - 1) + (dt.year - 1) / 4 - (dt.year - 1) / 100 + (dt.year - 1) / 400
    + cumDays dt.month + (if 2 < dt.month && isLeap dt.year then 1 else 0) + dt.day

/-- `(a - b).days` for two `datetime.date`s. -/
def dateDiffDays (a b : PyDate) : Int := (toOrdinal a : Int) - (toOrdinal b : Int)

/-! ## Regex search (the five patterns used by the date resolver)

Each Python `re.search` call is modelled by a per-position matcher tried at
every start position (leftmost match wins), with the same greedy
backtracking order as the regex engine: `\d{1,2}` tries two digits before
one, an alternation tries its branches left to right, and `\.?` tries to
consume the dot before skipping it. -/

/-- First alternative that succeeds, in backtracking order. -/
def firstSome {α β : Type} : List α → (α → Option β) → Option β
  | [], _ => none
  | x :: rest, f =>
      match f x with
      | some r => some r
      | none => firstSome rest f

def takeExactDigitsAux : Nat → Nat → List Char → Option (Nat × List Char)
  | 0, acc, cs => some (acc, cs)
  | n + 1, acc, c :: cs =>
      if c.isDigit then takeExactDigitsAux n (acc * 10 + (c.toNat - 48)) cs else none
  | _ + 1, _, [] => none

/-- Match exactly `n` digits, returning their numeric value (`int(...)` of
the matched group) and the remainder. -/
def takeExactDigits (n : Nat) (cs : List Char) : Option (Nat × List Char) :=
  takeExactDigitsAux n 0 cs

/-- Greedy alternatives for `\d{1,2}`: two digits first, then one digit. -/
def digits12 (cs : List Char) : List (Nat × List Char) :=
  (match takeExactDigits 2 cs with | some r => [r] | none => []) ++
    (match takeExactDigits 1 cs with | some r => [r] | none => [])

def lit (c : Char) : List Char → Option (List Char)
  | d :: cs => if d = c then some cs else none
  | [] => none

def litChars : List Char → List Char → Option (List Char)
  | [], cs => some cs
  | p :: ps, c :: cs => if c = p then litChars ps cs else none
  | _ :: _, [] => none

/-- Match a literal string, returning the remainder. -/
def litStr (s : String) (cs : List Char) : Option (List Char) := litChars s.toList cs

/-- `\s+` (greedy; every follower in the date patterns is a digit, so
maximal munch is exact). -/
def takeSpaces1 : List Char → Option (List Char)
  | c :: cs => if reIsSpace c then some (cs.dropWhile reIsSpace) else none
  | [] => none

/-- Greedy alternatives for `\.?`: consume the dot first, else skip. -/
def optDot (cs : List Char) : List (List Char) :=
  match cs with
  | '.' :: rest => [rest, cs]
  | _ => [cs]

def MONTHS_PT : List (String × Nat) :=
  [("jan", 1), ("fev", 2), ("mar", 3), ("abr", 4), ("mai", 5), ("jun", 6),
   ("jul", 7), ("ago", 8), ("set", 9), ("out", 10), ("nov", 11), ("dez", 12)]

def MONTHS_EN : List (String × Nat) :=
  [("jan", 1), ("january", 1), ("feb", 2), ("february", 2), ("mar", 3),
   ("march", 3), ("apr", 4), ("april", 4), ("may", 5), ("jun", 6), ("june", 6),
   ("jul", 7), ("july", 7), ("aug", 8), ("august", 8), ("sep", 9), ("sept", 9),
   ("september", 9), ("oct", 10), ("october", 10), ("nov", 11),
   ("november", 11), ("dec", 12), ("december", 12)]

/-- The branches of the English month alternation
`jan(?:uary)?|feb(?:ruary)?|…|dec(?:ember)?`, in the engine's
backtracking order (long form of each branch before its abbreviation). -/
def EN_MONTH_ALTERNATIVES : List String :=
  ["january", "jan", "february", "feb", "march", "mar", "april", "apr", "may",
   "june", "jun", "july", "jul", "august", "aug",
   "september", "sept", "sep", "october", "oct",
   "november", "nov", "december", "dec"]

def matchPTMonth (cs : List Char) : Option (String × List Char) :=
  firstSome (MONTHS_PT.map Prod.fst) fun tok =>
    (litStr tok cs).map fun rest => (tok, rest)

/-- `(\d{1,2})\.(jan|fev|…|dez)\.(\d{4})` at the start of `cs`;
returns (day, month token, year). -/
def matchPTDateAt (cs : List Char) : Option (Nat × String × Nat) :=
  firstSome (digits12 cs) fun dr =>
    (lit '.' dr.2).bind fun r2 =>
      (matchPTMonth r2).bind fun mr =>
        (lit '.' mr.2).bind fun r4 =>
          (takeExactDigits 4 r4).map fun yr => (dr.1, mr.1, yr.1)

/-- `(\d{1,2})\.(\d{1,2})\.(\d{4})` at the start of `cs`;
returns (day, month, year). -/
def matchNumDateAt (cs : List Char) : Option (Nat × Nat × Nat) :=
  firstSome (digits12 cs) fun dr =>
    (lit '.' dr.2).bind fun r2 =>
      firstSome (digits12 r2) fun mr =>
        (lit '.' mr.2).bind fun r4 =>
          (takeExactDigits 4 r4).map fun yr => (dr.1, mr.1, yr.1)

/-- `(20\d{2})-(\d{2})-(\d{2})` at the start of `cs`;
returns (year, month, day). -/
def matchISODateAt (cs : List Char) : Option (Nat × Nat × Nat) :=
  (litStr "20" cs).bind fun r1 =>
    (takeExactDigits 2 r1).bind fun y2 =>
      (lit '-' y2.2).bind fun r2 =>
        (takeExactDigits 2 r2).bind fun mm =>
          (lit '-' mm.2).bind fun r3 =>
            (takeExactDigits 2 r3).map fun dd => (2000 + y2.1, mm.1, dd.1)

/-- `(month)\.?\s+(\d{1,2}),\s+(\d{4})` at the start of `cs`;
returns (month token, day, year). -/
def matchENDateAt (cs : List Char) : Option (String × Nat × Nat) :=
  firstSome EN_MONTH_ALTERNATIVES fun tok =>
    (litStr tok cs).bind fun r1 =>
      firstSome (optDot r1) fun r2 =>
        (takeSpaces1 r2).bind fun r3 =>
          firstSome (digits12 r3) fun dr =>
            (lit ',' dr.2).bind fun r4 =>
              (takeSpaces1 r4).bind fun r5 =>
                (takeExactDigits 4 r5).map fun yr => (tok, dr.1, yr.1)

/-- `/(20\d{2})/(\d{1,2})/(\d{1,2})/` at the start of `cs`;
returns (year, month, day). -/
def matchURLDateAt (cs : List Char) : Option (Nat × Nat × Nat) :=
  (lit '/' cs).bind fun r0 =>
    (litStr "20" r0).bind fun r1 =>
      (takeExactDigits 2 r1).bind fun y2 =>
        (lit '/' y2.2).bind fun r2 =>
          firstSome (digits12 r2) fun mr =>
            (lit '/' mr.2).bind fun r3 =>
              firstSome (digits12 r3) fun dr =>
                (lit '/' dr.2).map fun _ => (2000 + y2.1, mr.1, dr.1)

/-- `re.search`: try the pattern matcher at every position, leftmost wins. -/
def searchAt {β : Type} (f : List Char → Option β) : List Char → Option β
  | [] => f []
  | c :: cs =>
      match f (c :: cs) with
      | some r => some r
      | none => searchAt f cs

/-! ## Date resolver (`news_fetcher._parse_date_from_text` / `_url`) -/

/-- `news_fetcher._parse_date_from_text`; a `ValueError` raised by
`datetime.date` propagates as `.error ()`. -/
def parse_date_from_text (text : String) : Except Unit (Option PyDate) :=
  if text = "" then .ok none
  else
    let t := (pyLower text).toList
    match searchAt matchPTDateAt t with
    | some (d, mon, y) => (mkDate y ((MONTHS_PT.lookup mon).getD 0) d).map some
    | none =>
      match searchAt matchNumDateAt t with
      | some (d, mo, y) => (mkDate y mo d).map some
      | none =>
        match searchAt matchISODateAt t with
        | some (y, mo, d) => (mkDate y mo d).map some
        | none =>
          match searchAt matchENDateAt t with
          | some (tok, d, y) => (mkDate y ((MONTHS_EN.lookup tok).getD 0) d).map some
          | none => .ok none

/-- `news_fetcher._parse_date_from_url`. -/
def parse_date_from_url (url : String) : Except Unit (Option PyDate) :=
  if url = "" then .ok none
  else
    match searchAt matchURLDateAt url.toList with
    | some (y, mo, d) => (mkDate y mo d).map some
    | none => .ok none

/-! ## URL helpers (`news_fetcher.py`) -/

/-- The `query` component of `urlparse`: text after the first `?`
(fragment after `#` excluded). -/
def urlQuery (url : String) : String :=
  let beforeFrag := url.toList.takeWhile (· ≠ '#')
  match beforeFrag.dropWhile (· ≠ '?') with
  | [] => ""
  | _ :: rest => String.mk rest

def hexVal (c : Char) : Option Nat :=
  if c.isDigit then some (c.toNat - 48)
  else if 'a' ≤ c && c ≤ 'f' then some (c.toNat - 87)
  else if 'A' ≤ c && c ≤ 'F' then some (c.toNat - 55)
  else none

/-- `%XX` decoding (`urllib.parse.unquote`; byte-per-char model, exact on
ASCII escapes). -/
def percentDecode : List Char → List Char
  | [] => []
  | '%' :: a :: b :: rest =>
      match hexVal a, hexVal b with
      | some ha, some hb => Char.ofNat (16 * ha + hb) :: percentDecode rest
      | _, _ => '%' :: percentDecode (a :: b :: rest)
  | c :: rest => c :: percentDecode rest

def pyUnquote (s : String) : String := String.mk (percentDecode s.toList)

def pyUnquotePlus (s : String) : String :=
  pyUnquote (String.mk (s.toList.map fun c => if c = '+' then ' ' else c))

/-- One `k=v` entry of a query string as decoded by `parse_qs`
(entries without `=` or with an empty value are skipped). -/
def parseQSentry (entry : String) : Option (String × String) :=
  let cs := entry.toList
  if cs.contains '=' then
    let k := cs.takeWhile (· ≠ '=')
    let v := (cs.dropWhile (· ≠ '=')).drop 1
    if v = [] then none
    else some (pyUnquotePlus (String.mk k), pyUnquotePlus (String.mk v))
  else none

def parseQS (query : String) : List (String × String) :=
  (query.splitOn "&").filterMap parseQSentry

/-- `qs["url"][0]` when the key is present with a value. -/
def qsFirst (query key : String) : Option String :=
  ((parseQS query).filter fun p => p.1 = key).head?.map Prod.snd

/-- `news_fetcher.normalize_amp_url`. -/
def normalize_amp_url (url : String) : String :=
  if url = "" then url
  else if pyIn "cdn.ampproject.org" url then
    match qsFirst (urlQuery url) "url" with
    | some v => pyUnquote v
    | none => pyReplace url "/amp/" "/"
  else pyReplace url "/amp/" "/"

/-- `news_fetcher.extract_domain`: `f"{scheme}://{netloc}"` from `urlparse`
(model for absolute `scheme://host/…` URLs, the form every configured
source uses). -/
def extract_domain (url : String) : String :=
  let cs := url.toList
  if containsSubChars "://".toList cs then
    let scheme := cs.takeWhile (· ≠ ':')
    let rest := (cs.dropWhile (· ≠ ':')).drop 3
    let netloc := rest.takeWhile fun c => c ≠ '/' && c ≠ '?' && c ≠ '#'
    String.mk scheme ++ "://" ++ String.mk netloc
  else "://"

/-! ## Blocklists (`news_fetcher.py`) -/

def URL_BLACKLIST_SUBSTR : List String := [
  "saudedigitalnews.com.br/receba",
  "oglobo.globo.com/tudo-sobre/", "/tudo-sobre/", "/assunto/", "/tag/", "/tags/",
  "medicinasa.com.br/conexa-edi", "medicinasa.com.br/unip-longevidade",
  "medicinasa.com.br/conexa-assefaz", "medicinasa.com.br/noa-notes",
  "medicinasa.com.br/noa-notes-recursos"]

def URL_BLOCKLIST_KEYWORDS : List String := [
  "receba", "assine", "newsletter", "tudo-sobre", "assunto", "/tag/", "/tags/",
  "/sobre"]

def BLOCKED_DOMAINS_SUBSTR : List String := [
  "folha.uol.com.br/equilibrio", "folha.uol.com.br/equilibrioesaude"]

/-- `news_fetcher.is_blacklisted_url`. -/
def is_blacklisted_url (url : String) : Bool :=
  let u := pyLower url
  if BLOCKED_DOMAINS_SUBSTR.any (fun d => pyIn d u) then true
  else if URL_BLACKLIST_SUBSTR.any (fun p => pyIn p u) then true
  else if URL_BLOCKLIST_KEYWORDS.any (fun k => pyIn k u) then true
  else false

/-! ## Recency check (`news_fetcher.is_recent_with_article_fetch`) -/

/-- `news_fetcher.is_recent_with_article_fetch`.  `today` models
`datetime.now().date()` and `htmlFetch` the result of `fetch_html(url)`
(`none` = transport failure handled inside `fetch_html`); a `ValueError`
from date parsing propagates as `.error ()`. -/
def is_recent_with_article_fetch (today : PyDate) (htmlFetch : Option String)
    (title url : String) (max_days : Int) : Except Unit Bool := do
  let dTitle ← parse_date_from_text title
  let d ← match dTitle with
    | some dv => pure (some dv)
    | none => parse_date_from_url url
  match d with
  | some dv =>
      let delta := dateDiffDays today dv
      return decide (0 ≤ delta ∧ delta ≤ max_days)
  | none =>
      match htmlFetch with
      | some html =>
          if html = "" then return false
          else do
            let dHtml ← parse_date_from_text html
            let d2 ← match dHtml with
              | some dv => pure (some dv)
              | none => parse_date_from_url url
            match d2 with
            | some dv =>
                let delta := dateDiffDays today dv
                return decide (0 ≤ delta ∧ delta ≤ max_days)
            | none => return false
      | none => return false

/-! ## Scorer (`news_fetcher.compute_score`) -/

def STRATEGIC_TERMS : List (String × Int) := [
  ("aquisição", 7), ("aquisicao", 7), ("compra", 6), ("fusão", 7), ("fusao", 7),
  ("m&a", 7), ("merge", 6), ("acquire", 6), ("acquisition", 6),
  ("capta", 6), ("captação", 6), ("captacao", 6), ("rodada", 6),
  ("investimento", 5), ("investidor", 5), ("venture", 5), ("funding", 5),
  ("assinatura", 6), ("subscription", 6), ("lança", 5), ("lanca", 5),
  ("lançamento", 5), ("lancamento", 5), ("expansão", 6), ("expansao", 6),
  ("parceria", 6), ("joint venture", 7), ("contrato", 5), ("acordo", 5),
  ("modelo", 4), ("precificação", 4), ("precificacao", 4), ("marketplace", 4),
  ("ans", 6), ("rn", 5), ("norma", 5), ("regulação", 5), ("regulacao", 5),
  ("plano de saúde", 5), ("plano de saude", 5), ("operadora", 5),
  ("sinistralidade", 5), ("coparticipação", 4), ("coparticipacao", 4)]

def PHYSICAL_EVENT_TERMS : List (String × Int) := [
  ("inaugura", -5), ("inauguração", -5), ("inauguracao", -5),
  ("abre novo", -4), ("abertura", -3), ("cerimônia", -3), ("cerimonia", -3),
  ("evento", -3), ("congresso", -3), ("feira", -3), ("seminário", -3),
  ("seminario", -3), ("workshop", -3), ("prêmio", -3), ("premio", -3),
  ("premiação", -3), ("premiacao", -3)]

/-- `news_fetcher.compute_score` (every float weight is integral and only
additions occur, so `Int` sums are exact). -/
def compute_score (article : Article) : Int :=
  let title := pyLower article.title
  let url := pyLower article.url
  let source := pyLower article.source_name
  let s0 : Int := POSITIVE_KEYWORDS.foldl (fun s w => if pyIn w title then s + 1 else s) 0
  let s1 := s0 + (if pyIn "telemedicina" title || pyIn "atendimento virtual" title then 6 else 0)
  let s2 := s1 + (if pyIn "saúde mental" title || pyIn "saude mental" title || pyIn "bets" title then 5 else 0)
  let s3 := s2 + (if pyIn "inteligência artificial" title || pyIn "inteligencia artificial" title || pyIn " ia " title then 4 else 0)
  let s4 := STRATEGIC_TERMS.foldl (fun s p => if pyIn p.1 title then s + p.2 else s) s3
  let s5 := PHYSICAL_EVENT_TERMS.foldl (fun s p => if pyIn p.1 title then s + p.2 else s) s4
  let s6 := s5 + (if pyIn "bloomberglinea" url || pyIn "bloomberg.com" url then 7 else 0)
  let s7 := s6 + (if pyIn "neofeed" url then 6 else 0)
  let s8 := s7 + (if pyIn "exame.com" url then 5 else 0)
  let s9 := s8 + (if pyIn "valor.globo.com" url || pyIn "valor" source then 4 else 0)
  s9 + (if article.«section» = SECTION_HEALTHTECHS then 2 else 0)

/-! ## Per-source fetch loop (`news_fetcher.fetch_articles_from_source`) -/

def MAX_ARTICLES_PER_SOURCE : Nat := 3

/-- One entry of `parser.links`: `{"href": …, "text": …}`. -/
structure Link where
  href : String
  text : String
  deriving DecidableEq, Repr

/-- `max_days = 2 if source.section == SECTION_BRASIL else 1`
(`news_fetcher.py` line 513). -/
def max_days_for_section (sec : String) : Int :=
  if sec = SECTION_BRASIL then 2 else 1

/-- The `for link in parser.links` loop of `fetch_articles_from_source`,
with the `articles` / `seen_urls` accumulators explicit. -/
def fetchLoop (source : Source) (base_domain : String) (today : PyDate)
    (fetchArticle : String → Option String) (max_days : Int) :
    List Link → List Article → List String → Except Unit (List Article)
  | [], articles, _ => .ok articles
  | link :: rest, articles, seen_urls =>
      if MAX_ARTICLES_PER_SOURCE ≤ articles.length then .ok articles
      else
        let href := normalize_amp_url link.href
        if ¬ pyStartsWith href base_domain then
          fetchLoop source base_domain today fetchArticle max_days rest articles seen_urls
        else if href ∈ seen_urls then
          fetchLoop source base_domain today fetchArticle max_days rest articles seen_urls
        else if is_blacklisted_url href then
          fetchLoop source base_domain today fetchArticle max_days rest articles seen_urls
        else
          let title := normSpace link.text
          if title.length < 25 then
            fetchLoop source base_domain today fetchArticle max_days rest articles seen_urls
          else if ¬ is_relevant title then
            fetchLoop source base_domain today fetchArticle max_days rest articles seen_urls
          else
            match is_recent_with_article_fetch today (fetchArticle href) title href max_days with
            | .error e => .error e
            | .ok false =>
                fetchLoop source base_domain today fetchArticle max_days rest articles seen_urls
            | .ok true =>
                fetchLoop source base_domain today fetchArticle max_days rest
                  (articles ++ [⟨title, href, source.name, source.«section», 0⟩])
                  (href :: seen_urls)

/-- `news_fetcher.fetch_articles_from_source`, with the anchors extracted
from the source page supplied as `links` (the extractor and the page fetch
are I/O collaborators).  The code reads `source.base_url`, an attribute the
`Source` dataclass does not declare; `base_url` is that value. -/
def fetch_articles_from_source (source : Source) (base_url : String)
    (links : List Link) (today : PyDate)
    (fetchArticle : String → Option String) : Except Unit (List Article) :=
  let base_domain := extract_domain base_url
  let max_days := max_days_for_section source.«section»
  fetchLoop source base_domain today fetchArticle max_days links [] []

/-! ## Run orchestration (`news_fetcher.fetch_all_articles`,
`group_articles_by_section`) -/

/-- The body of the source loop of `news_fetcher.fetch_all_articles`:
`try: src_articles = fetch_articles_from_source(src) except: continue`
followed by scoring and extending the accumulator. -/
def score_and_extend (fetchRes : Source → Except Unit (List Article))
    (acc : List Article) (src : Source) : List Article :=
  match fetchRes src with
  | .error _ => acc
  | .ok arts => acc ++ arts.map fun a => { a with score := compute_score a }

/-- `news_fetcher.fetch_all_articles`, over the section→sources mapping
(the dict `sources_by_section()` builds) and an oracle giving each
source's `fetch_articles_from_source` outcome; `.error` models an
exception raised while processing that source, which the `try/except`
logs and skips.  The final sort is Python's stable descending sort by
score. -/
def fetch_all_articles (bySection : List (String × List Source))
    (fetchRes : Source → Except Unit (List Article)) : List Article :=
  let all := bySection.foldl (fun acc p => p.2.foldl (score_and_extend fetchRes) acc) []
  all.mergeSort fun a b => decide (b.score ≤ a.score)

/-- Append an article to the list of its section in the insertion-ordered
dict, adding the key at the end if absent (`grouped.setdefault(...)`). -/
def appendAt : List (String × List Article) → String → Article → List (String × List Article)
  | [], sec, a => [(sec, [a])]
  | (k, l) :: rest, sec, a =>
      if k = sec then (k, l ++ [a]) :: rest else (k, l) :: appendAt rest sec a

/-- One step of the `for art in articles` loop of
`group_articles_by_section`: state is (grouped dict, `seen_urls`). -/
def groupStep (st : List (String × List Article) × List String) (art : Article) :
    List (String × List Article) × List String :=
  if ¬ is_relevant art.title then st
  else if art.url ∈ st.2 then st
  else (appendAt st.1 art.«section» art, art.url :: st.2)

/-- `news_fetcher.group_articles_by_section` (a Python dict is an
insertion-ordered association list with unique keys). -/
def group_articles_by_section (articles : List Article) :
    List (String × List Article) :=
  let init : List (String × List Article) :=
    [(SECTION_BRASIL, []), (SECTION_MUNDO, []),
     (SECTION_HEALTHTECHS, []), (SECTION_WELLNESS, [])]
  let grouped := (articles.foldl groupStep (init, [])).1
  grouped.map fun p => (p.1, p.2.take 20)

/-! ## Delivery (`send_email.py` lines 203–215, `main.py` lines 99–104) -/

/-- The response check at the end of `send_email.send_email`: a Brevo
response status ≥ 300 raises `RuntimeError` (modelled as `.error`). -/
def send_email_status_check (status_code : Nat) : Except String Unit :=
  if 300 ≤ status_code then .error ("Brevo API error: " ++ toString status_code)
  else .ok ()

/-- The `__main__` guard of `main.py`: `sys.exit(1)` when `main()` raises,
normal termination (exit code 0) otherwise.  `main` calls `send_email`
last and does not catch its exceptions, so a delivery error reaches this
guard unchanged. -/
def main_exit_code (result : Except String Unit) : Nat :=
  match result with
  | .ok _ => 0
  | .error _ => 1

/-! ## Shared lemmas about the classifier -/

lemma is_relevant_veto (text : String)
    (h : ∃ w ∈ NEGATIVE_KEYWORDS, pyIn w (pyLower text) = true) :
    is_relevant text = false := by
  unfold is_relevant
  by_cases h0 : text = ""
  · rw [if_pos h0]
  · rw [if_neg h0]
    have hany : NEGATIVE_KEYWORDS.any (fun w => pyIn w (pyLower text)) = true :=
      List.any_eq_true.mpr (by simpa using h)
    simp [hany]

lemma no_positive_in_empty :
    ∀ w ∈ POSITIVE_KEYWORDS, pyIn w (pyLower "") = false := by decide

/-- C1: `is_relevant` accepts iff the lower-cased text contains no
negative keyword and at least one positive keyword; a negative keyword
forces rejection regardless of positives; the classifier is a pure
function, hence idempotent. -/
theorem is_relevant_accept_iff (text : String) :
    (is_relevant text = true ↔
      ((∀ w ∈ NEGATIVE_KEYWORDS, pyIn w (pyLower text) = false) ∧
        ∃ w ∈ POSITIVE_KEYWORDS, pyIn w (pyLower text) = true)) ∧
    ((∃ w ∈ NEGATIVE_KEYWORDS, pyIn w (pyLower text) = true) →
      is_relevant text = false) ∧
    is_relevant text = is_relevant text := by
  refine ⟨?_, is_relevant_veto text, rfl⟩
  unfold is_relevant
  by_cases h0 : text = ""
  · subst h0
    rw [if_pos rfl]
    constructor
    · intro h; cases h
    · rintro ⟨-, w, hw, hIn⟩
      rw [no_positive_in_empty w hw] at hIn
      cases hIn
  · rw [if_neg h0]
    cases hneg : NEGATIVE_KEYWORDS.any (fun w => pyIn w (pyLower text)) with
    | true =>
        simp only [hneg, if_true]
        constructor
        · intro h; cases h
        · rintro ⟨hno, -⟩
          obtain ⟨w, hw, hIn⟩ := List.any_eq_true.mp hneg
          rw [hno w hw] at hIn
          cases hIn
    | false =>
        simp only [hneg, Bool.false_eq_true, if_false]
        have hno : ∀ w ∈ NEGATIVE_KEYWORDS, pyIn w (pyLower text) = false := by
          intro w hw
          cases hx : pyIn w (pyLower text) with
          | false => rfl
          | true =>
              have : NEGATIVE_KEYWORDS.any (fun w => pyIn w (pyLower text)) = true :=
                List.any_eq_true.mpr ⟨w, hw, hx⟩
              rw [hneg] at this
              cases this
        constructor
        · intro hpos
          exact ⟨hno, by simpa using List.any_eq_true.mp hpos⟩
        · rintro ⟨-, hpos⟩
          exact List.any_eq_true.mpr (by simpa using hpos)

/-- C1 witness: the veto branch of the theorem applied to a concrete text
that contains the negative keyword "prefeitura" and the positive keyword
"telemedicina". -/
theorem is_relevant_accept_iff_witness :
    is_relevant "prefeitura lança telemedicina" = false :=
  (is_relevant_accept_iff "prefeitura lança telemedicina").2.1 (by decide)

/-- C5 counterexample: "aquisição" is a configured strategic term and
occurs in the text, yet `is_relevant` rejects the text (the negative
keyword "crime" vetoes it) — there is no allow-list bypass. -/
theorem strategic_term_no_bypass_counterexample :
    ("aquisição", (7 : Int)) ∈ STRATEGIC_TERMS ∧
    pyIn "aquisição" (pyLower "aquisição ligada a crime") = true ∧
    is_relevant "aquisição ligada a crime" = false :=
  ⟨by decide, by decide, by decide⟩

/-- C5 amended: strategic terms are score weights only
(`compute_score`); `is_relevant` never consults them, so a text
containing a strategic term is still rejected whenever it contains a
negative keyword. -/
theorem strategic_term_no_bypass (text : String)
    (_hstrat : ∃ w ∈ STRATEGIC_TERMS.map Prod.fst, pyIn w (pyLower text) = true)
    (hneg : ∃ w ∈ NEGATIVE_KEYWORDS, pyIn w (pyLower text) = true) :
    is_relevant text = false :=
  is_relevant_veto text hneg

/-- C5 amended, witness at the counterexample text. -/
theorem strategic_term_no_bypass_witness :
    is_relevant "aquisição ligada a crime" = false :=
  strategic_term_no_bypass "aquisição ligada a crime"
    ⟨"aquisição", by decide, by decide⟩ ⟨"crime", by decide, by decide⟩

/-! ## Lemmas about the recency check and the date resolver -/

lemma okBind {ε α β : Type} (a : α) (f : α → Except ε β) :
    (Except.ok a >>= f : Except ε β) = f a := rfl

/-- When the title yields a date, the recency check is exactly the window
test on `(today - d).days`. -/
lemma is_recent_of_title_date (today d : PyDate) (html : Option String)
    (title url : String) (m : Int)
    (hparse : parse_date_from_text title = .ok (some d)) :
    is_recent_with_article_fetch today html title url m =
      .ok (decide (0 ≤ dateDiffDays today d ∧ dateDiffDays today d ≤ m)) := by
  unfold is_recent_with_article_fetch
  rw [hparse]
  rfl

lemma max_days_nonneg (sec : String) : 0 ≤ max_days_for_section sec := by
  unfold max_days_for_section
  split <;> norm_num

/-- C3: an article whose resolved date `d` is exactly `max_days` old is
accepted and one `max_days + 1` days old is rejected, where the window is
2 days for the Brasil section and 1 day for every other section. -/
theorem date_window_boundary (today d : PyDate) (sec title url : String)
    (html : Option String)
    (hparse : parse_date_from_text title = .ok (some d)) :
    (dateDiffDays today d = max_days_for_section sec →
      is_recent_with_article_fetch today html title url (max_days_for_section sec) =
        .ok true) ∧
    (dateDiffDays today d = max_days_for_section sec + 1 →
      is_recent_with_article_fetch today html title url (max_days_for_section sec) =
        .ok false) ∧
    (sec = SECTION_BRASIL → max_days_for_section sec = 2) ∧
    (sec ≠ SECTION_BRASIL → max_days_for_section sec = 1) := by
  refine ⟨?_, ?_, ?_, ?_⟩
  · intro hd
    rw [is_recent_of_title_date today d html title url _ hparse, hd]
    have h0 := max_days_nonneg sec
    simp [h0]
  · intro hd
    rw [is_recent_of_title_date today d html title url _ hparse, hd]
    simp only [Except.ok.injEq, decide_eq_false_iff_not, not_and]
    intro _
    omega
  · intro h
    simp [max_days_for_section, h]
  · intro h
    simp [max_days_for_section, h]

/-- C3 witness: with `today = 2025-12-10` and the Brasil window
(`max_days = 2`), a title dated 2025-12-08 is accepted and one dated
2025-12-07 is rejected. -/
theorem date_window_boundary_witness :
    is_recent_with_article_fetch ⟨2025, 12, 10⟩ none "noticia de 08.12.2025"
        "https://ex.com/a" (max_days_for_section SECTION_BRASIL) = .ok true ∧
    is_recent_with_article_fetch ⟨2025, 12, 10⟩ none "noticia de 07.12.2025"
        "https://ex.com/a" (max_days_for_section SECTION_BRASIL) = .ok false :=
  ⟨(date_window_boundary ⟨2025, 12, 10⟩ ⟨2025, 12, 8⟩ SECTION_BRASIL
      "noticia de 08.12.2025" "https://ex.com/a" none rfl).1 (by decide),
   (date_window_boundary ⟨2025, 12, 10⟩ ⟨2025, 12, 7⟩ SECTION_BRASIL
      "noticia de 07.12.2025" "https://ex.com/a" none rfl).2.1 (by decide)⟩

/-- C4 counterexample: "31.02.2025" matches the numeric pattern and
`datetime.date(2025, 2, 31)` raises `ValueError`, so
`_parse_date_from_text` raises instead of skipping the malformed match. -/
theorem parse_raises_on_malformed_counterexample :
    parse_date_from_text "31.02.2025" = .error () := rfl

/-- C4 amended: the date parsers return a date, no date, or raise; a
matched day–month–year combination that is invalid for the calendar makes
`_parse_date_from_text` raise `ValueError` (modelled `.error ()`) rather
than being skipped. -/
theorem parse_error_on_invalid_match (text : String) (d m y : Nat)
    (hpt : searchAt matchPTDateAt (pyLower text).toList = none)
    (hnum : searchAt matchNumDateAt (pyLower text).toList = some (d, m, y))
    (hbad : dateOK y m d = false) :
    parse_date_from_text text = .error () := by
  have htext : text ≠ "" := by
    intro h
    subst h
    have hnil : searchAt matchNumDateAt (pyLower "").toList = none := rfl
    rw [hnil] at hnum
    cases hnum
  unfold parse_date_from_text
  rw [if_neg htext]
  simp only [hpt, hnum, mkDate, hbad, Bool.false_eq_true, if_false, Except.map]

/-- C4 amended, witness at the counterexample input. -/
theorem parse_error_on_invalid_match_witness :
    parse_date_from_text "31.02.2025" = .error () :=
  parse_error_on_invalid_match "31.02.2025" 31 2 2025 rfl rfl rfl

/-- C10: when no date pattern matches in the title, the URL, or the
fetched article HTML (including a failed fetch), the recency check
returns `False`, so the article is rejected. -/
theorem unresolved_date_rejected (today : PyDate) (html : Option String)
    (title url : String) (max_days : Int)
    (ht : parse_date_from_text title = .ok none)
    (hu : parse_date_from_url url = .ok none)
    (hh : ∀ h, html = some h → parse_date_from_text h = .ok none) :
    is_recent_with_article_fetch today html title url max_days = .ok false := by
  unfold is_recent_with_article_fetch
  rw [ht]
  simp only [okBind]
  rw [hu]
  simp only [okBind]
  cases html with
  | none => rfl
  | some h =>
      by_cases he : h = ""
      · subst he
        rfl
      · have hph := hh h rfl
        simp only [if_neg he, hph, okBind, hu]
        rfl

/-- C10 witness: a dateless title and URL with a failed article fetch are
rejected. -/
theorem unresolved_date_rejected_witness :
    is_recent_with_article_fetch ⟨2025, 12, 10⟩ none
      "Hospitais ampliam a telemedicina" "https://example.com/noticia" 1 =
      .ok false :=
  unresolved_date_rejected ⟨2025, 12, 10⟩ none
    "Hospitais ampliam a telemedicina" "https://example.com/noticia" 1
    rfl rfl (fun _ hEq => nomatch hEq)

/-! ## Per-source selection (C2) -/

/-- The article a link would turn into if it passes every gate of the
per-source loop (score still 0: scoring happens later, in
`fetch_all_articles`). -/
def candidate_article (source : Source) (link : Link) : Article :=
  ⟨normSpace link.text, normalize_amp_url link.href, source.name, source.«section», 0⟩

lemma fetchLoop_spec (source : Source) (bd : String) (today : PyDate)
    (fetch : String → Option String) (md : Int) :
    ∀ (links : List Link) (articles : List Article) (seen : List String)
      (res : List Article),
      fetchLoop source bd today fetch md links articles seen = .ok res →
      (articles.length ≤ MAX_ARTICLES_PER_SOURCE →
        res.length ≤ MAX_ARTICLES_PER_SOURCE) ∧
      ∃ ex, res = articles ++ ex ∧ List.Sublist ex (links.map (candidate_article source)) := by
  intro links
  induction links with
  | nil =>
      intro articles seen res h
      obtain rfl : articles = res := by
        simpa [fetchLoop] using h
      exact ⟨fun hle => hle, [], by simp, List.nil_sublist _⟩
  | cons link rest ih =>
      intro articles seen res h
      simp only [fetchLoop] at h
      by_cases hbreak : MAX_ARTICLES_PER_SOURCE ≤ articles.length
      · rw [if_pos hbreak] at h
        obtain rfl : articles = res := by
          simpa using h
        exact ⟨fun hle => hle, [], by simp, List.nil_sublist _⟩
      · rw [if_neg hbreak] at h
        have hskip :
            fetchLoop source bd today fetch md rest articles seen = .ok res →
            (articles.length ≤ MAX_ARTICLES_PER_SOURCE →
              res.length ≤ MAX_ARTICLES_PER_SOURCE) ∧
            ∃ ex, res = articles ++ ex ∧
              List.Sublist ex ((link :: rest).map (candidate_article source)) := by
          intro h'
          obtain ⟨hlen, ex, hres, hsub⟩ := ih articles seen res h'
          exact ⟨hlen, ex, hres, hsub.cons _⟩
        split at h
        · exact hskip h
        · split at h
          · exact hskip h
          · split at h
            · exact hskip h
            · split at h
              · exact hskip h
              · split at h
                · exact hskip h
                · split at h
                  · cases h
                  · exact hskip h
                  · obtain ⟨hlen, ex, hres, hsub⟩ := ih _ _ _ h
                    refine ⟨fun hle => hlen (by simp; omega), candidate_article source link :: ex, ?_, ?_⟩
                    · rw [hres]
                      simp [candidate_article]
                    · exact hsub.cons₂ _

/-- C2 amended: each source contributes at most
`MAX_ARTICLES_PER_SOURCE = 3` articles (a global constant — the
`Source.max_articles` field is never consulted), and they are the first
qualifying candidates in page order (a sublist of the candidate list in
document order); scores play no role in the selection. -/
theorem per_source_cap_and_order (source : Source) (base_url : String)
    (links : List Link) (today : PyDate) (fetch : String → Option String)
    (arts : List Article)
    (h : fetch_articles_from_source source base_url links today fetch = .ok arts) :
    arts.length ≤ MAX_ARTICLES_PER_SOURCE ∧
    List.Sublist arts (links.map (candidate_article source)) := by
  obtain ⟨hlen, ex, hres, hsub⟩ :=
    fetchLoop_spec source (extract_domain base_url) today fetch
      (max_days_for_section source.«section») links [] [] arts h
  refine ⟨hlen (by simp), ?_⟩
  rw [hres]
  simpa using hsub

/-- Inputs for the C2 refutation: a Brasil source (cap 3) whose page
shows three low-scoring qualifying anchors before a high-scoring one,
and a Mundo source configured with `max_articles = 2` whose page shows
three qualifying anchors. -/
def exToday : PyDate := ⟨2025, 12, 3⟩

def exSourceB : Source := ⟨"Fonte", "https://ex.com/", "brasil", 3⟩

def exSourceM : Source := ⟨"FonteM", "https://exm.com/", "mundo", 2⟩

def exLinksB : List Link :=
  [⟨"https://ex.com/n1", "Hospital investe em novo centro 02.12.2025"⟩,
   ⟨"https://ex.com/n2", "Hospital amplia o centro de dados 02.12.2025"⟩,
   ⟨"https://ex.com/n3", "Hospital conclui reforma geral da ala 02.12.2025"⟩,
   ⟨"https://ex.com/n4", "Telemedicina cresce no interior do estado 02.12.2025"⟩]

def exLinksM : List Link :=
  [⟨"https://exm.com/m1", "Hospital investe em novo centro 02.12.2025"⟩,
   ⟨"https://exm.com/m2", "Hospital amplia o centro de dados 02.12.2025"⟩,
   ⟨"https://exm.com/m3", "Hospital conclui reforma geral da ala 02.12.2025"⟩]

/-- C2 counterexample.  The Brasil source returns the first three
qualifying anchors in page order even though the fourth qualifying
candidate (relevant, recent) scores strictly higher than each of them —
the selection is not "highest score first".  The Mundo source is
configured with `max_articles = 2` yet contributes 3 articles — the
configured per-source cap is not the one enforced. -/
theorem per_source_selection_counterexample :
    (fetch_articles_from_source exSourceB "https://ex.com/" exLinksB exToday
        (fun _ => none) =
      .ok [⟨"Hospital investe em novo centro 02.12.2025", "https://ex.com/n1",
              "Fonte", "brasil", 0⟩,
           ⟨"Hospital amplia o centro de dados 02.12.2025", "https://ex.com/n2",
              "Fonte", "brasil", 0⟩,
           ⟨"Hospital conclui reforma geral da ala 02.12.2025", "https://ex.com/n3",
              "Fonte", "brasil", 0⟩]) ∧
    is_relevant "Telemedicina cresce no interior do estado 02.12.2025" = true ∧
    is_recent_with_article_fetch exToday none
        "Telemedicina cresce no interior do estado 02.12.2025"
        "https://ex.com/n4" (max_days_for_section "brasil") = .ok true ∧
    compute_score ⟨"Telemedicina cresce no interior do estado 02.12.2025",
        "https://ex.com/n4", "Fonte", "brasil", 0⟩ >
      compute_score ⟨"Hospital investe em novo centro 02.12.2025",
        "https://ex.com/n1", "Fonte", "brasil", 0⟩ ∧
    exSourceM.max_articles = 2 ∧
    (fetch_articles_from_source exSourceM "https://exm.com/" exLinksM exToday
        (fun _ => none) =
      .ok [⟨"Hospital investe em novo centro 02.12.2025", "https://exm.com/m1",
              "FonteM", "mundo", 0⟩,
           ⟨"Hospital amplia o centro de dados 02.12.2025", "https://exm.com/m2",
              "FonteM", "mundo", 0⟩,
           ⟨"Hospital conclui reforma geral da ala 02.12.2025", "https://exm.com/m3",
              "FonteM", "mundo", 0⟩]) :=
  ⟨rfl, by decide, rfl, by decide, rfl, rfl⟩

/-- C2 amended, witness: the Brasil example source's output has length
≤ 3 and is a page-order sublist of its candidate list. -/
theorem per_source_cap_and_order_witness :
    ([⟨"Hospital investe em novo centro 02.12.2025", "https://ex.com/n1",
        "Fonte", "brasil", 0⟩,
      ⟨"Hospital amplia o centro de dados 02.12.2025", "https://ex.com/n2",
        "Fonte", "brasil", 0⟩,
      ⟨"Hospital conclui reforma geral da ala 02.12.2025", "https://ex.com/n3",
        "Fonte", "brasil", 0⟩] : List Article).length ≤ MAX_ARTICLES_PER_SOURCE ∧
    List.Sublist
      ([⟨"Hospital investe em novo centro 02.12.2025", "https://ex.com/n1",
        "Fonte", "brasil", 0⟩,
      ⟨"Hospital amplia o centro de dados 02.12.2025", "https://ex.com/n2",
        "Fonte", "brasil", 0⟩,
        ⟨"Hospital conclui reforma geral da ala 02.12.2025", "https://ex.com/n3",
          "Fonte", "brasil", 0⟩] : List Article)
      (exLinksB.map (candidate_article exSourceB)) :=
  per_source_cap_and_order exSourceB "https://ex.com/" exLinksB exToday
    (fun _ => none) _ rfl

/-! ## Digest-level dedup (C6, C7) -/

/-- All URLs of a grouped digest, section by section in order. -/
def groupedUrls : List (String × List Article) → List String
  | [] => []
  | p :: rest => p.2.map Article.url ++ groupedUrls rest

lemma groupedUrls_appendAt (g : List (String × List Article)) (sec : String)
    (a : Article) :
    List.Perm (groupedUrls (appendAt g sec a)) (groupedUrls g ++ [a.url]) := by
  induction g with
  | nil => simp [appendAt, groupedUrls]
  | cons p rest ih =>
      obtain ⟨k, l⟩ := p
      by_cases hk : k = sec
      · simp only [appendAt, if_pos hk, groupedUrls, List.map_append,
          List.map_cons, List.map_nil, List.append_assoc]
        exact List.Perm.append_left _ List.perm_append_comm
      · simp only [appendAt, if_neg hk, groupedUrls, List.append_assoc]
        exact List.Perm.append_left _ ih

lemma mem_groupedUrls_appendAt (g : List (String × List Article)) (sec : String)
    (a : Article) (u : String) :
    u ∈ groupedUrls (appendAt g sec a) ↔ u ∈ groupedUrls g ∨ u = a.url := by
  rw [(groupedUrls_appendAt g sec a).mem_iff]
  simp

/-- Loop invariant of `group_articles_by_section`: the grouped URLs are
distinct and all recorded in `seen_urls`. -/
def GroupInv (st : List (String × List Article) × List String) : Prop :=
  (groupedUrls st.1).Nodup ∧ ∀ u ∈ groupedUrls st.1, u ∈ st.2

lemma groupStep_add_inv (st : List (String × List Article) × List String)
    (art : Article) (h : GroupInv st) (h2 : art.url ∉ st.2) :
    GroupInv (appendAt st.1 art.«section» art, art.url :: st.2) := by
  constructor
  · refine ((groupedUrls_appendAt st.1 art.«section» art).nodup_iff).mpr ?_
    simp only [List.nodup_append, List.nodup_cons, List.nodup_nil]
    refine ⟨h.1, by simp, ?_⟩
    intro u hu hu'
    simp only [List.mem_singleton] at hu'
    subst hu'
    exact h2 (h.2 _ hu)
  · intro u hu
    rcases (mem_groupedUrls_appendAt st.1 art.«section» art u).mp hu with hu' | rfl
    · exact List.mem_cons_of_mem _ (h.2 u hu')
    · exact List.mem_cons_self _ _

lemma groupStep_inv (st : List (String × List Article) × List String)
    (art : Article) (h : GroupInv st) : GroupInv (groupStep st art) := by
  unfold groupStep
  split_ifs with h1 h2
  all_goals first
    | exact h
    | exact groupStep_add_inv st art h h2

lemma foldl_groupStep_inv (articles : List Article) :
    ∀ st, GroupInv st → GroupInv (articles.foldl groupStep st) := by
  induction articles with
  | nil => intro st h; exact h
  | cons a rest ih => intro st h; exact ih _ (groupStep_inv st a h)

lemma groupedUrls_take_sublist (g : List (String × List Article)) :
    List.Sublist (groupedUrls (g.map fun p => (p.1, p.2.take 20)))
      (groupedUrls g) := by
  induction g with
  | nil => simp [groupedUrls]
  | cons p rest ih =>
      simp only [groupedUrls, List.map_cons]
      exact List.Sublist.append ((List.take_sublist _ _).map _) ih

/-- C6: in every digest `group_articles_by_section` produces, the URLs of
all sections, concatenated, are pairwise distinct — no URL appears in two
sections nor twice in one section. -/
theorem digest_urls_nodup (articles : List Article) :
    (groupedUrls (group_articles_by_section articles)).Nodup := by
  unfold group_articles_by_section
  have hinv := foldl_groupStep_inv articles
    ([(SECTION_BRASIL, []), (SECTION_MUNDO, []),
      (SECTION_HEALTHTECHS, []), (SECTION_WELLNESS, [])], [])
    ⟨by simp [groupedUrls], by simp [groupedUrls]⟩
  exact hinv.1.sublist (groupedUrls_take_sublist _)

/-- C7 counterexample: two relevant articles with the same title but
different URLs both land in the Brasil section — no title-based dedup is
performed (only URLs are deduplicated). -/
theorem title_dedup_counterexample :
    List.lookup SECTION_BRASIL (group_articles_by_section
      [⟨"Telemedicina avança nos hospitais do país", "https://a.com/1",
          "S", "brasil", 0⟩,
       ⟨"Telemedicina avança nos hospitais do país", "https://a.com/2",
          "S", "brasil", 0⟩]) =
      some [⟨"Telemedicina avança nos hospitais do país", "https://a.com/1",
               "S", "brasil", 0⟩,
            ⟨"Telemedicina avança nos hospitais do país", "https://a.com/2",
               "S", "brasil", 0⟩] ∧
    ("Telemedicina avança nos hospitais do país" : String) =
      "Telemedicina avança nos hospitais do país" ∧
    ("https://a.com/1" : String) ≠ "https://a.com/2" :=
  ⟨rfl, rfl, by decide⟩

/-- C7 amended: `group_articles_by_section` deduplicates by URL only;
any two relevant Brasil articles with distinct URLs are both retained,
regardless of their titles (in particular with identical normalized
titles). -/
theorem title_dedup_absent (a b : Article)
    (ha : a.«section» = SECTION_BRASIL) (hb : b.«section» = SECTION_BRASIL)
    (hra : is_relevant a.title = true) (hrb : is_relevant b.title = true)
    (hurl : a.url ≠ b.url) :
    List.lookup SECTION_BRASIL (group_articles_by_section [a, b]) =
      some [a, b] := by
  unfold group_articles_by_section
  simp only [List.foldl]
  have s1 : groupStep
      ([(SECTION_BRASIL, []), (SECTION_MUNDO, []),
        (SECTION_HEALTHTECHS, []), (SECTION_WELLNESS, [])], []) a =
      (([(SECTION_BRASIL, [a]), (SECTION_MUNDO, []),
        (SECTION_HEALTHTECHS, []), (SECTION_WELLNESS, [])]), [a.url]) := by
    unfold groupStep
    rw [if_neg (by simp [hra]), if_neg (by simp), ha]
    simp [appendAt]
  rw [s1]
  have s2 : groupStep
      (([(SECTION_BRASIL, [a]), (SECTION_MUNDO, []),
        (SECTION_HEALTHTECHS, []), (SECTION_WELLNESS, [])]), [a.url]) b =
      (([(SECTION_BRASIL, [a, b]), (SECTION_MUNDO, []),
        (SECTION_HEALTHTECHS, []), (SECTION_WELLNESS, [])]), [b.url, a.url]) := by
    unfold groupStep
    rw [if_neg (by simp [hrb]),
      if_neg (by simp only [List.mem_singleton]; exact fun h => hurl h.symm), hb]
    simp [appendAt]
  rw [s2]
  simp [List.lookup, List.take]

/-- C7 amended, witness at the counterexample articles. -/
theorem title_dedup_absent_witness :
    List.lookup SECTION_BRASIL (group_articles_by_section
      [⟨"Telemedicina avança nos hospitais do país", "https://a.com/1",
          "S", "brasil", 0⟩,
       ⟨"Telemedicina avança nos hospitais do país", "https://a.com/2",
          "S", "brasil", 0⟩]) =
      some [⟨"Telemedicina avança nos hospitais do país", "https://a.com/1",
               "S", "brasil", 0⟩,
            ⟨"Telemedicina avança nos hospitais do país", "https://a.com/2",
               "S", "brasil", 0⟩] :=
  title_dedup_absent _ _ rfl rfl (by decide) (by decide) (by decide)

/-! ## Failure isolation (C8) and delivery errors (C9) -/

lemma score_and_extend_recover (fetchRes : Source → Except Unit (List Article))
    (acc : List Article) (src : Source) :
    score_and_extend
      (fun s => match fetchRes s with
        | .error _ => .ok []
        | .ok arts => .ok arts) acc src =
      score_and_extend fetchRes acc src := by
  unfold score_and_extend
  rcases hfs : fetchRes src with e | arts <;> simp [hfs]

/-- C8 (the per-source containment the `try/except` of
`fetch_all_articles` implements): replacing every failing source's
outcome by a successful empty fetch yields the identical article list —
a raising source contributes exactly zero candidates and the remaining
sources are unaffected. -/
theorem fetch_all_failure_isolation (bySection : List (String × List Source))
    (fetchRes : Source → Except Unit (List Article)) :
    fetch_all_articles bySection fetchRes =
      fetch_all_articles bySection
        (fun s => match fetchRes s with
          | .error _ => .ok []
          | .ok arts => .ok arts) := by
  unfold fetch_all_articles
  have h : bySection.foldl
      (fun acc p => p.2.foldl (score_and_extend fetchRes) acc) [] =
      bySection.foldl
        (fun acc p => p.2.foldl (score_and_extend
          (fun s => match fetchRes s with
            | .error _ => .ok []
            | .ok arts => .ok arts)) acc) [] := by
    apply List.foldl_ext
    intro acc p _
    apply List.foldl_ext
    intro acc2 src _
    exact (score_and_extend_recover fetchRes acc2 src).symm
  rw [h]

/-- C9: a delivery response status of 300 or greater makes `send_email`
raise `RuntimeError`, and the `__main__` guard then exits with code 1 —
never 0. -/
theorem delivery_failure_exits_nonzero (status_code : Nat)
    (h : 300 ≤ status_code) :
    send_email_status_check status_code =
      .error ("Brevo API error: " ++ toString status_code) ∧
    main_exit_code (send_email_status_check status_code) = 1 ∧
    main_exit_code (send_email_status_check status_code) ≠ 0 := by
  have hc : send_email_status_check status_code =
      .error ("Brevo API error: " ++ toString status_code) := by
    unfold send_email_status_check
    rw [if_pos h]
  refine ⟨hc, by rw [hc]; rfl, by rw [hc]; simp [main_exit_code]⟩

/-- C9 witness: status 300 (the boundary) raises and exits 1. -/
theorem delivery_failure_exits_nonzero_witness :
    send_email_status_check 300 =
      .error ("Brevo API error: " ++ toString 300) ∧
    main_exit_code (send_email_status_check 300) = 1 ∧
    main_exit_code (send_email_status_check 300) ≠ 0 :=
  delivery_failure_exits_nonzero 300 (by norm_num)

end SaudeNews
